import Mathlib

/-!
Verification development for the measure-oh-sung backend.

The definitions below are shallow embeddings of the Python sources under
`backend/app/services/`, chiefly `wt310_power_meter.py`,
`measurement_service.py`, `inspection.py`, `inspection_routine.py`,
`serial_communication.py` and `serial.py`.  Machine floats are modelled by
`PyFloat` (a rational together with the special `nan`/`inf` values) at the
parsing layer and by plain rationals at the orchestration layer; Python
strings are modelled as `List Char`; the mutable connection and session
dictionaries are modelled as association lists.
-/

set_option autoImplicit false

namespace MeasureOhSung

/-! ## String utilities

Embeddings of the Python string operations used by the driver:
`s.split(sep)[0]` (prefix before the first separator) and `s.strip()`.
-/

/-- Python `s.split(sep)[0]`: the prefix of the character list before the first
occurrence of `sep`. -/
def firstSplit (sep : Char) : List Char → List Char
  | [] => []
  | c :: rest => if c = sep then [] else c :: firstSplit sep rest

/-- Python `str.strip()`: drop leading and trailing whitespace. -/
def pyStrip (cs : List Char) : List Char :=
  ((cs.dropWhile Char.isWhitespace).reverse.dropWhile Char.isWhitespace).reverse

/-! ## Python float model

`float(str)` in the driver is modelled by `pyFloat?`.  A Python float is a
finite value (modelled exactly as a rational), a signed infinity, or NaN.
The parser accepts the forms the WT310 driver can meet: optional sign,
decimal digits with an optional fraction and an optional `e`/`E` exponent,
and the case-insensitive special names `nan`, `inf` and `infinity`.
A string outside this syntax is a `ValueError`, modelled as `none`.
-/

inductive PyFloat where
  | finite (q : ℚ)
  | inf (neg : Bool)
  | nan
deriving DecidableEq

/-- Consume an optional leading sign; `true` means negative. -/
def parseSign : List Char → Bool × List Char
  | '+' :: cs => (false, cs)
  | '-' :: cs => (true, cs)
  | cs => (false, cs)

/-- Split a character list into its leading run of decimal digits and the
rest. -/
def takeDigits : List Char → List Char × List Char
  | [] => ([], [])
  | c :: cs =>
    if c.isDigit then
      let p := takeDigits cs
      (c :: p.1, p.2)
    else ([], c :: cs)

/-- Value of a digit run read in base 10. -/
def digitsToNat (cs : List Char) : ℕ :=
  cs.foldl (fun a c => 10 * a + (c.toNat - 48)) 0

/-- Parse `digits [ "." digits ]` into a rational; at least one digit must be
present on one side of the point. -/
def parseMantissa (cs : List Char) : Option (ℚ × List Char) :=
  let ip := takeDigits cs
  match ip.2 with
  | '.' :: r2 =>
    let fp := takeDigits r2
    if ip.1.isEmpty ∧ fp.1.isEmpty then none
    else some ((digitsToNat ip.1 : ℚ) + (digitsToNat fp.1 : ℚ) / ((10 : ℕ) ^ fp.1.length : ℕ), fp.2)
  | _ => if ip.1.isEmpty then none else some ((digitsToNat ip.1 : ℚ), ip.2)

/-- Parse an optional `e`/`E` exponent; absence means exponent `0`. -/
def parseExponent (cs : List Char) : Option (ℤ × List Char) :=
  match cs with
  | c :: r1 =>
    if c = 'e' ∨ c = 'E' then
      let sr := parseSign r1
      let ds := takeDigits sr.2
      if ds.1.isEmpty then none
      else some ((if sr.1 then -(digitsToNat ds.1 : ℤ) else (digitsToNat ds.1 : ℤ)), ds.2)
    else some (0, cs)
  | [] => some (0, [])

/-- Scale a rational mantissa by a power of ten. -/
def applyExp (m : ℚ) (e : ℤ) : ℚ :=
  match e with
  | .ofNat n => m * ((10 : ℕ) ^ n : ℕ)
  | .negSucc n => m / ((10 : ℕ) ^ (n + 1) : ℕ)

/-- Model of Python `float(str)`: `none` is a `ValueError`. -/
def pyFloat? (s : List Char) : Option PyFloat :=
  let t := pyStrip s
  let sr := parseSign t
  let low := sr.2.map Char.toLower
  if low = "nan".toList then some .nan
  else if low = "inf".toList ∨ low = "infinity".toList then some (.inf sr.1)
  else
    match parseMantissa sr.2 with
    | none => none
    | some mr =>
      match parseExponent mr.2 with
      | none => none
      | some er =>
        if er.2.isEmpty then
          some (.finite (applyExp (if sr.1 then -mr.1 else mr.1) er.1))
        else none

/-! ## WT310 value parsing (`wt310_power_meter.py`)

`wt310_read_active_power_once` (lines 144-211), ASCII branch: split the
response on commas, strip the first field, convert with `float`; the six
signed `NAN`/`INF` spellings are filtered to `None` after conversion; a
`ValueError` also yields `None` (line 190).  The FLOAT binary branch
(lines 191-208) returns `None` on every path.  The surrounding
`try`/`except` (lines 209-211) maps any raised exception to `None`.
The simulation branch (lines 157-163) is outside this model.
-/

/-- The six spellings filtered at line 184 of the source. -/
def nanInfTokens : List (List Char) :=
  ["NAN".toList, "+NAN".toList, "-NAN".toList, "INF".toList, "+INF".toList, "-INF".toList]

/-- The check `first.upper() in ("NAN", "+NAN", "-NAN", "INF", "+INF", "-INF")`. -/
def isNanInfToken (first : List Char) : Prop :=
  first.map Char.toUpper ∈ nanInfTokens

instance (first : List Char) : Decidable (isNanInfToken first) := by
  unfold isNanInfToken; infer_instance

/-- Lines 173-190: convert the stripped first field with `float`; a
`ValueError` gives `None`; a `NAN`/`INF` spelling gives `None`; otherwise the
converted value is returned. -/
def wt310_parse_ascii_first (first : List Char) : Option PyFloat :=
  match pyFloat? first with
  | none => none
  | some v => if isNanInfToken first then none else some v

/-- Lines 144-211 of `wt310_power_meter.py` for a non-simulation transport:
`resp` is the string `_query_scpi` returned (`[]` = empty response). -/
def wt310_read_active_power_once (resp : List Char) (ascii_format : Bool) : Option PyFloat :=
  match resp, ascii_format with
  | [], _ => none
  | resp, true => wt310_parse_ascii_first (pyStrip (firstSplit ',' resp))
  | _, false => none

/-- Lines 209-211: the driver call is wrapped in `try`/`except`; a raised
exception (`.error`) is logged and swallowed, producing `None`. -/
def wt310_read_once_total (exchange : Except String (List Char)) (ascii_format : Bool) :
    Option PyFloat :=
  match exchange with
  | .error _ => none
  | .ok resp => wt310_read_active_power_once resp ascii_format

/-! ## Line reads and SCPI queries (`wt310_power_meter.py`, lines 29-107)

`_read_line` either drains the waiting buffer (taking the text before the
first LF, stripped) or reads byte by byte until an LF, a timeout, or a
`serial.SerialException`; the exception is caught (lines 72-74) and the
partial line is returned — `_read_line` never raises (the outer
`except` at lines 85-87 returns `""`).  `_query_scpi` retries the read up
to `max_retries` times, sleeping `retry_backoff_sec` between attempts, and
returns `""` once the budget is exhausted.
-/

/-- One outcome of a `ser.read(1)` call inside `_read_line`'s loop. -/
inductive SerTick where
  | byte (c : Char)
  | timeout
  | exn
deriving DecidableEq

/-- The byte loop of `_read_line` (lines 53-75): collect bytes until an LF is
received; a timeout or a caught `SerialException` ends the loop with the
bytes collected so far. -/
def readLineLoop : List SerTick → List Char
  | [] => []
  | .byte c :: rest => c :: (if c = '\n' then [] else readLineLoop rest)
  | .timeout :: _ => []
  | .exn :: _ => []

/-- Embedding of `_read_line` (lines 29-87): `inWaiting` is the waiting buffer
(`ser.in_waiting` bytes), `ticks` the byte-by-byte read outcomes used when
the buffer is empty.  The result is always a string, never an exception. -/
def wt_read_line (inWaiting : List Char) (ticks : List SerTick) : List Char :=
  if inWaiting.isEmpty then pyStrip (readLineLoop ticks)
  else pyStrip (firstSplit '\n' inWaiting)

/-- Constant `max_retries = 3` (line 95). -/
def max_retries : ℕ := 3

/-- Backoff `time.sleep(0.1)` between attempts (line 104), in seconds. -/
def retry_backoff_sec : ℚ := 1 / 10

/-- The retry loop of `_query_scpi` (lines 96-107): each list element is the
serial input seen by one `_read_line` call; a nonempty response is returned
at once, otherwise the next attempt runs; an exhausted list returns `""`. -/
def query_retry : List (List Char × List SerTick) → List Char
  | [] => []
  | (w, t) :: rest =>
    let response := wt_read_line w t
    if response ≠ [] then response else query_retry rest

/-- Embedding of `_query_scpi` (lines 89-107): at most `max_retries` attempts are made. -/
def wt_query_scpi (attempts : List (List Char × List SerTick)) : List Char :=
  query_retry (attempts.take max_retries)

/-- Number of `_read_line` calls `query_retry` makes on the given inputs. -/
def query_attempts_used : List (List Char × List SerTick) → ℕ
  | [] => 0
  | (w, t) :: rest =>
    if wt_read_line w t ≠ [] then 1 else 1 + query_attempts_used rest

/-! ## Sample collection (`wt310_power_meter.py`, lines 216-361)

The value type at the collection and orchestration layer is `Option ℚ`: a
driver reading is a finite value or `None` (the `PyFloat` special values are
settled at the parsing layer above).  A collection run is modelled by the
list of loop iterations the source's `while` executed, each carrying the
iteration's elapsed time and the driver's returned value; the real-time exit
condition (`now - t0 >= duration_sec`) decides only the length of that list.
-/

/-- The recording step of `wt310_collect_for` (lines 245-291, both the
polling and the synchronized branch): `elapsed` is appended to `ts`, and
`safe_value` — the value with `None` replaced by `0.0` (lines 249-251,
274-276) — is appended to `vs`. -/
def collectLoop : List (ℚ × Option ℚ) → List ℚ → List (Option ℚ) → List ℚ × List (Option ℚ)
  | [], ts, vs => (ts, vs)
  | (elapsed, v) :: rest, ts, vs =>
    let safe_value : ℚ := match v with | some x => x | none => 0
    collectLoop rest (ts ++ [elapsed]) (vs ++ [some safe_value])

/-- Embedding of `wt310_collect_for` (lines 216-294): returns `(timestamps, values)`. -/
def wt310_collect_for (iters : List (ℚ × Option ℚ)) : List ℚ × List (Option ℚ) :=
  collectLoop iters [] []

/-- The recording step of `wt310_collect_latest_with_wait` (lines 327-356):
the parsed value `v` is appended unchanged — `None` is preserved
(line 353). -/
def latestLoop : List (ℚ × Option ℚ) → List ℚ → List (Option ℚ) → List ℚ × List (Option ℚ)
  | [], ts, vs => (ts, vs)
  | (elapsed, v) :: rest, ts, vs => latestLoop rest (ts ++ [elapsed]) (vs ++ [v])

/-- Embedding of `wt310_collect_latest_with_wait` (lines 299-361). -/
def wt310_collect_latest_with_wait (iters : List (ℚ × Option ℚ)) :
    List ℚ × List (Option ℚ) :=
  latestLoop iters [] []

/-! ## Sequential inspection (`wt310_power_meter.py`, lines 366-481) -/

/-- Python `min(l)` over a nonempty rational list (`0` for `[]`, unused). -/
def listMin : List ℚ → ℚ
  | [] => 0
  | [x] => x
  | x :: y :: rest => min x (listMin (y :: rest))

/-- Python `max(l)` over a nonempty rational list (`0` for `[]`, unused). -/
def listMax : List ℚ → ℚ
  | [] => 0
  | [x] => x
  | x :: y :: rest => max x (listMax (y :: rest))

/-- The per-phase result dictionary built at lines 432-440 (success) and
lines 469-478 (exception). -/
structure WPhaseResult where
  timestamps : List ℚ
  values : List (Option ℚ)
  valid_values : List ℚ
  count : ℕ
  avg : ℚ
  min : ℚ
  max : ℚ
  error : Option String
deriving DecidableEq

/-- Lines 432-440: statistics of one phase's collected `(timestamps, values)`;
`valid_values` drops `None` entries, and `avg`/`min`/`max` are `0` when no
entry is valid. -/
def wt310_phase_result (ts : List ℚ) (values : List (Option ℚ)) : WPhaseResult :=
  let valid := values.filterMap id
  { timestamps := ts
    values := values
    valid_values := valid
    count := valid.length
    avg := if valid.isEmpty then 0 else valid.sum / valid.length
    min := if valid.isEmpty then 0 else listMin valid
    max := if valid.isEmpty then 0 else listMax valid
    error := none }

/-- Lines 469-478: the result recorded when a phase's body raised. -/
def wt310_error_result (msg : String) : WPhaseResult :=
  { timestamps := [], values := [], valid_values := [], count := 0
    avg := 0, min := 0, max := 0, error := some msg }

/-- Outcome of one phase's body (configuration plus collection): either an
exception with its message, or the collected `(timestamps, values)`. -/
inductive PhaseRun where
  | raises (msg : String)
  | collects (ts : List ℚ) (values : List (Option ℚ))
deriving DecidableEq

/-- The `for i, phase in enumerate(phases)` loop of
`wt310_sequential_inspection` (lines 400-479): the `except` arm records an
error result for the raising phase and the loop continues with the next
phase — it does not break, re-raise, or skip the remaining phases. -/
def seqLoop (run : ℕ → PhaseRun) : List String → ℕ → List (String × WPhaseResult)
  | [], _ => []
  | phase :: rest, i =>
    let r := match run i with
      | .raises msg => wt310_error_result msg
      | .collects ts vs => wt310_phase_result ts vs
    (phase, r) :: seqLoop run rest (i + 1)

/-- Embedding of `wt310_sequential_inspection` (lines 366-481): `run i` is the outcome of
phase `i`'s configuration-and-collection body. -/
def wt310_sequential_inspection (phases : List String) (run : ℕ → PhaseRun) :
    List (String × WPhaseResult) :=
  seqLoop run phases 0

/-! ## Association-table helpers

The Python dictionaries (`active_measurements`, `connections`) are modelled
as association lists with first-match lookup; `setKey` is dictionary
assignment, `removeKey` is `del`.
-/

/-- First-match lookup in an association list. -/
def lookupKey {α β : Type} [DecidableEq α] : List (α × β) → α → Option β
  | [], _ => none
  | (k, v) :: rest, k' => if k = k' then some v else lookupKey rest k'

/-- Remove every entry with the given key. -/
def removeKey {α β : Type} [DecidableEq α] (t : List (α × β)) (k : α) : List (α × β) :=
  t.filter (fun p => p.1 ≠ k)

/-- Dictionary assignment `t[k] = v`. -/
def setKey {α β : Type} [DecidableEq α] (t : List (α × β)) (k : α) (v : β) : List (α × β) :=
  (k, v) :: removeKey t k

/-- Membership test `k in t`. -/
def hasKey {α β : Type} [DecidableEq α] (t : List (α × β)) (k : α) : Bool :=
  (lookupKey t k).isSome

/-! ## Measurement service (`measurement_service.py`)

`complete_phase_measurement` (lines 104-135) judges one phase from the data
points stored for it; `start_measurement_session` (lines 26-41) and
`complete_measurement_session` (lines 183-210) manage the per-session
table.  Data points reach a phase through
`inspection_routine._execute_measurement_phase` (lines 208-240), which
skips empty responses and unparsable values, so a poll with no usable
reading stores nothing.
-/

inductive MeasurementResult where
  | PASS
  | FAIL
  | ERROR
deriving DecidableEq

/-- The judgement loop of `complete_phase_measurement` (lines 128-132):
`result` starts as `PASS` and flips to `FAIL` at the first value outside
`[lower, upper]`. -/
def judgeLoop (lower upper : ℚ) : List ℚ → MeasurementResult
  | [] => .PASS
  | v :: rest => if v < lower ∨ upper < v then .FAIL else judgeLoop lower upper rest

/-- Lines 120-135 of `complete_phase_measurement`: nonempty data is judged by
the loop; empty data is judged `ERROR`.  (The min/max/avg/std statistics of
lines 123-127 do not influence the result.) -/
def complete_phase_result (values : List ℚ) (lower upper : ℚ) : MeasurementResult :=
  if ¬ values.isEmpty then judgeLoop lower upper values else .ERROR

/-- From `inspection_routine._execute_measurement_phase` lines 208-240: each
poll's parsed outcome is `some v` or `none` (empty response or
`ValueError`); only parsed values are stored via `add_measurement_data`. -/
def phase_stored_values (reads : List (Option ℚ)) : List ℚ :=
  reads.filterMap id

/-- The per-phase slots of one session's `measurement_data["phases"]`:
the `"result"` key of each of `P1`, `P2`, `P3`, absent until
`complete_phase_measurement` sets it (line 158). -/
structure MeasurementData where
  p1 : Option MeasurementResult
  p2 : Option MeasurementResult
  p3 : Option MeasurementResult
deriving DecidableEq

/-- The service's `active_measurements` table. -/
structure MeasurementSvc where
  active : List (String × MeasurementData)
deriving DecidableEq

/-- Embedding of `start_measurement_session` (lines 26-41): a fresh entry with all three
phases pending and no result. -/
def start_measurement_session (svc : MeasurementSvc) (session_id : String) : MeasurementSvc :=
  ⟨setKey svc.active session_id ⟨none, none, none⟩⟩

/-- The overall-result loop of `complete_measurement_session`
(lines 191-195): `PASS` unless some phase's recorded result differs from
`PASS` (a missing result counts as a difference). -/
def overall_loop : List (Option MeasurementResult) → MeasurementResult
  | [] => .PASS
  | r :: rest => if r ≠ some .PASS then .FAIL else overall_loop rest

/-- Embedding of `complete_measurement_session` (lines 183-210): an unknown session id is
a no-op returning `None`; otherwise the overall result is computed over
`P1`, `P2`, `P3` in order and the session is deleted from the table. -/
def complete_measurement_session (svc : MeasurementSvc) (session_id : String) :
    MeasurementSvc × Option MeasurementResult :=
  match lookupKey svc.active session_id with
  | none => (svc, none)
  | some md =>
    let overall := overall_loop [md.p1, md.p2, md.p3]
    (⟨removeKey svc.active session_id⟩, some overall)

/-! ## Inspection orchestrators (`inspection.py`, `inspection_routine.py`) -/

inductive InspectionStatus where
  | IDLE
  | RUNNING_POWER
  | RUNNING_SAFETY
  | RUNNING_BOTH
  | COMPLETED
  | ERROR
deriving DecidableEq

/-- The mutable fields of `InspectionService` (`inspection.py`,
lines 34-40) touched by `start_continuous_inspection`. -/
structure InspectionServiceState where
  status : InspectionStatus
  current_session_id : Option String
  current_barcode : Option String
  current_model_id : Option ℤ
deriving DecidableEq

/-- Embedding of `start_continuous_inspection` (`inspection.py`, lines 51-117).
The busy check raises (line 60) *inside* the `try`, so the `except` arm
(lines 113-117) still runs: it sets `status = ERROR` and re-raises.  The
session fields are overwritten (lines 65-68) *before* the model and
polling-settings lookups (lines 71-77), so a failed lookup also ends in
`ERROR` with the fields already clobbered.  `modelFound`, `pollingFound`
and `measurementOk` abstract the two db lookups and the power-measurement
call; `sid` abstracts the generated session id.  The returned `Bool` is
`true` when the call raised. -/
def start_continuous_inspection (st : InspectionServiceState)
    (sid barcode : String) (modelId : ℤ)
    (modelFound pollingFound measurementOk : Bool) :
    InspectionServiceState × Bool :=
  if st.status ≠ .IDLE then
    ({ st with status := .ERROR }, true)
  else
    let st1 : InspectionServiceState :=
      { status := .RUNNING_POWER
        current_session_id := some sid
        current_barcode := some barcode
        current_model_id := some modelId }
    if ¬ modelFound then ({ st1 with status := .ERROR }, true)
    else if ¬ pollingFound then ({ st1 with status := .ERROR }, true)
    else if ¬ measurementOk then ({ st1 with status := .ERROR }, true)
    else ({ st1 with status := .COMPLETED }, false)

inductive RoutineStatus where
  | IDLE
  | BARCODE_READY
  | MEASURING_P1
  | WAITING_P1_TO_P2
  | MEASURING_P2
  | WAITING_P2_TO_P3
  | MEASURING_P3
  | COMPLETED
  | ERROR
deriving DecidableEq

/-- The session dictionary of `InspectionRoutineService` (fields used by
`process_barcode_scan`). -/
structure RoutineSession where
  session_id : String
  barcode : String
deriving DecidableEq

/-- The mutable fields of `InspectionRoutineService`
(`inspection_routine.py`, lines 29-32). -/
structure RoutineState where
  status : RoutineStatus
  current_session : Option RoutineSession
deriving DecidableEq

/-- Embedding of `process_barcode_scan` (`inspection_routine.py`, lines 46-111): every
guard — not ready, unknown model, no active test settings, no connected
device — returns `success = False` before any state is touched; only the
success path installs the new session.  The returned `Bool` is the
response's `success` flag. -/
def process_barcode_scan (st : RoutineState) (barcode : String)
    (modelFound settingsFound devicesConnected : Bool) (newSid : String) :
    RoutineState × Bool :=
  if st.status ≠ .BARCODE_READY then (st, false)
  else if ¬ modelFound then (st, false)
  else if ¬ settingsFound then (st, false)
  else if ¬ devicesConnected then (st, false)
  else ({ st with current_session := some ⟨newSid, barcode⟩ }, true)

/-! ## Connection manager (`serial_communication.py`, `serial.py`)

Both files define a `SerialCommunicationService` with a
`connections: Dict[int, serial.Serial]` table.  `OpenOutcome` abstracts the
`serial.Serial(...)` constructor call: a handle (whose `is_open` the code
then tests) or a raised exception.  Handle values carry the port name and
open flag of the underlying `serial.Serial` object.
-/

structure SerialPort where
  port : String
  is_open : Bool
deriving DecidableEq

abbrev ConnTable := List (ℤ × SerialPort)

/-- Outcome of the `serial.Serial(...)` constructor. -/
inductive OpenOutcome where
  | opened (p : SerialPort)
  | raises
deriving DecidableEq

/-- From `serial_communication.py`: `connect_device` (lines 35-118).  The
method body runs under `with self.lock` (line 36), a non-reentrant
`threading.Lock`; when an entry for the device already exists, it calls
`self.disconnect_device(device.id)` (line 42), whose own `with self.lock`
(line 123) blocks forever on the lock the caller still holds — the call
self-deadlocks before anything is closed, removed or reopened, modelled as
`none`.  With no prior entry the constructor outcome decides: an open
handle is stored (line 78) and `True` returned; a handle that is not open,
or a raised constructor, returns `False`. -/
def sc_connect_device (t : ConnTable) (device_id : ℤ) (outcome : OpenOutcome) :
    Option (ConnTable × Bool) :=
  if hasKey t device_id then none
  else
    match outcome with
    | .raises => some (t, false)
    | .opened p => if p.is_open then some (setKey t device_id p, true) else some (t, false)

/-- From `serial_communication.py`: `disconnect_device` (lines 120-134): a present
entry is closed and deleted and `True` returned — unless `close()` raises,
in which case the `del` never runs and `False` is returned with the entry
still in the table; an absent entry returns `False`. -/
def sc_disconnect_device (t : ConnTable) (device_id : ℤ) (closeRaises : Bool) :
    ConnTable × Bool :=
  if hasKey t device_id then
    if closeRaises then (t, false) else (removeKey t device_id, true)
  else (t, false)

/-- From `serial.py`: `connect_device` (lines 39-76, `simulation_mode = False`):
an existing entry returns `True` immediately, keeping the old handle
(lines 42-44); otherwise a new handle is opened and stored if open. -/
def s_connect_device (t : ConnTable) (device_id : ℤ) (outcome : OpenOutcome) :
    ConnTable × Bool :=
  if hasKey t device_id then (t, true)
  else
    match outcome with
    | .raises => (t, false)
    | .opened p => if p.is_open then (setKey t device_id p, true) else (t, false)

/-- From `serial.py`: `disconnect_device` (lines 78-98): same shape as the
`serial_communication.py` variant. -/
def s_disconnect_device (t : ConnTable) (device_id : ℤ) (closeRaises : Bool) :
    ConnTable × Bool :=
  if hasKey t device_id then
    if closeRaises then (t, false) else (removeKey t device_id, true)
  else (t, false)

/-! ## Helper lemmas -/

theorem firstSplit_comma_append (pre rest : List Char) (h : ',' ∉ pre) :
    firstSplit ',' (pre ++ ',' :: rest) = pre := by
  induction pre with
  | nil => simp [firstSplit]
  | cons c cs ih =>
    have hc : ¬ c = ',' := fun hc => h (by simp [hc])
    have hcs : ',' ∉ cs := fun hm => h (by simp [hm])
    simp [firstSplit, hc, ih hcs]

theorem wt310_read_cons (c : Char) (cs : List Char) :
    wt310_read_active_power_once (c :: cs) true
      = wt310_parse_ascii_first (pyStrip (firstSplit ',' (c :: cs))) := rfl

/-- Reading a response whose first comma-delimited field is a known token:
the rest of the response does not matter. -/
theorem wt310_read_token_comma (pre rest : List Char) (hc : ',' ∉ pre) (hne : pre ≠ [])
    (hp : wt310_parse_ascii_first (pyStrip pre) = none) :
    wt310_read_active_power_once (pre ++ ',' :: rest) true = none := by
  match pre, hne with
  | c :: cs, _ =>
    rw [List.cons_append, wt310_read_cons, ← List.cons_append,
      firstSplit_comma_append _ _ hc]
    exact hp

theorem query_attempts_used_le_length (l : List (List Char × List SerTick)) :
    query_attempts_used l ≤ l.length := by
  induction l with
  | nil => simp [query_attempts_used]
  | cons a rest ih =>
    obtain ⟨w, t⟩ := a
    by_cases h : wt_read_line w t ≠ []
    · simp [query_attempts_used, h]
    · simp only [query_attempts_used, if_neg h, List.length_cons]
      omega

/-! ## Claim C4 -/

/-- Claim C4 (confirmed): `read_value` parses the first comma-delimited field
of the response; the literal `"+1.234560E+02"` parses to `123.456`; a
response whose first token is one of the six signed `NAN`/`INF` spellings —
with or without further comma-separated fields — yields `None`, a valid
no-data outcome, not an error and not an exception. -/
theorem c4_read_value_parses :
    wt310_read_active_power_once ("+1.234560E+02".toList) true
      = some (.finite (123456 / 1000)) ∧
    ∀ t ∈ nanInfTokens, wt310_read_active_power_once t true = none ∧
      ∀ rest : List Char, wt310_read_active_power_once (t ++ ',' :: rest) true = none := by
  refine ⟨?_, ?_⟩
  · simp +decide [wt310_read_active_power_once, wt310_parse_ascii_first, pyFloat?, pyStrip,
      parseSign, parseMantissa, parseExponent, takeDigits, digitsToNat, applyExp, firstSplit,
      isNanInfToken, nanInfTokens]
    norm_num
  · intro t ht
    have h6 : t = "NAN".toList ∨ t = "+NAN".toList ∨ t = "-NAN".toList ∨ t = "INF".toList ∨
        t = "+INF".toList ∨ t = "-INF".toList := by
      simpa [nanInfTokens] using ht
    rcases h6 with h | h | h | h | h | h <;> subst h <;>
      exact ⟨by decide, fun rest => wt310_read_token_comma _ _ (by decide) (by decide) (by decide)⟩

/-- Witness for C4: the theorem applied at the token `"NAN"` and at the
response `"NAN,+1.0E+00"`. -/
theorem c4_read_value_parses_witness :
    wt310_read_active_power_once ("NAN".toList) true = none ∧
    wt310_read_active_power_once ("NAN".toList ++ ',' :: "+1.0E+00".toList) true = none :=
  ⟨(c4_read_value_parses.2 ("NAN".toList) (by decide)).1,
   (c4_read_value_parses.2 ("NAN".toList) (by decide)).2 ("+1.0E+00".toList)⟩

/-! ## Claim C5 -/

/-- Counterexample to claim C5: a first field that fails numeric parsing
(`"GARBAGE"`) makes `read_value` return `None` — exactly the same value as
the valid no-data outcome for `"NAN"` — not a distinguishable `ParseError`
result. -/
theorem c5_parse_failure_counterexample :
    wt310_read_active_power_once ("GARBAGE".toList) true = none ∧
    wt310_read_active_power_once ("GARBAGE".toList) true
      = wt310_read_active_power_once ("NAN".toList) true := by
  constructor <;> decide

/-- Claim C5 (corrected): a nonempty response whose stripped first
comma-delimited field fails `float` conversion makes `read_value` return
`None`, indistinguishable from the no-data outcome (the `ValueError` handler
at line 190 returns `None`, not an error value). -/
theorem c5_parse_failure_amended (resp : List Char) (hne : resp ≠ [])
    (hfail : pyFloat? (pyStrip (firstSplit ',' resp)) = none) :
    wt310_read_active_power_once resp true = none := by
  match resp, hne with
  | c :: cs, _ =>
    rw [wt310_read_cons]
    simp [wt310_parse_ascii_first, hfail]

/-- Witness for C5's amended theorem at the response `"+1.2.3"`. -/
theorem c5_parse_failure_amended_witness :
    wt310_read_active_power_once ("+1.2.3".toList) true = none :=
  c5_parse_failure_amended ("+1.2.3".toList) (by decide) (by decide)

/-! ## Claim C6 -/

/-- Counterexample to claim C6: a transport that raises `SerialException` on
every read does not propagate the error — `_read_line` swallows it into an
empty response, and `_query_scpi` retries it like any empty response,
consuming all three attempts and returning `""`. -/
theorem c6_transport_error_counterexample :
    wt_query_scpi [([], [.exn]), ([], [.exn]), ([], [.exn])] = [] ∧
    query_attempts_used ([([], [.exn]), ([], [.exn]), ([], [.exn])].take max_retries) = 3 := by
  constructor <;> decide

/-- Claim C6 (corrected): each exchange makes at most `max_retries = 3` read
attempts with a fixed `0.1`-second backoff between attempts, and a retry is
triggered exactly by an empty response: a nonempty first response is
returned at once with no retry, an empty first response consumes one attempt
of the budget; transport-level read errors do not propagate — `_read_line`
catches them and returns the empty partial line, which is then retried like
any empty response. -/
theorem c6_retry_policy_amended (attempts : List (List Char × List SerTick))
    (w : List Char) (t : List SerTick) (rest : List (List Char × List SerTick)) :
    query_attempts_used (attempts.take max_retries) ≤ max_retries ∧
    (wt_read_line w t ≠ [] → wt_query_scpi ((w, t) :: rest) = wt_read_line w t) ∧
    (wt_read_line w t = [] →
      wt_query_scpi ((w, t) :: rest) = query_retry (rest.take (max_retries - 1))) ∧
    wt_read_line [] [SerTick.exn] = [] ∧
    retry_backoff_sec = 1 / 10 := by
  refine ⟨?_, ?_, ?_, by decide, rfl⟩
  · calc query_attempts_used (attempts.take max_retries)
        ≤ (attempts.take max_retries).length := query_attempts_used_le_length _
      _ ≤ max_retries := by simp
  · intro h
    simp only [wt_query_scpi, max_retries, List.take_succ_cons, query_retry]
    rw [if_pos h]
  · intro h
    simp only [wt_query_scpi, max_retries, List.take_succ_cons, query_retry]
    rw [if_neg (by simp [h])]

/-- Witness for C6's amended theorem: a nonempty first response is returned
without retry. -/
theorem c6_retry_policy_amended_witness :
    wt_query_scpi [("OK".toList, []), ([], [])] = wt_read_line ("OK".toList) [] :=
  (c6_retry_policy_amended [] ("OK".toList) [] [([], [])]).2.1 (by decide)

/-! ## Claim C1 -/

theorem judgeLoop_eq_pass_iff (lower upper : ℚ) (values : List ℚ) :
    judgeLoop lower upper values = .PASS ↔ ∀ v ∈ values, lower ≤ v ∧ v ≤ upper := by
  induction values with
  | nil => simp [judgeLoop]
  | cons v rest ih =>
    simp only [judgeLoop]
    by_cases h : v < lower ∨ upper < v
    · rw [if_pos h]
      constructor
      · intro hfail; exact absurd hfail (by decide)
      · intro hall
        rcases hall v (List.mem_cons_self v rest) with ⟨h1, h2⟩
        rcases h with h | h
        · exact absurd h1 (not_le.mpr h)
        · exact absurd h2 (not_le.mpr h)
    · rw [if_neg h, ih]
      push_neg at h
      constructor
      · intro hall w hw
        rcases List.mem_cons.mp hw with rfl | hw'
        · exact ⟨h.1, h.2⟩
        · exact hall w hw'
      · intro hall w hw
        exact hall w (List.mem_cons_of_mem _ hw)

/-- Counterexample to claim C1: a phase whose sample list contains zero
valid samples — here the single missing reading `[none]`, of which nothing
is stored — is judged `ERROR` by `complete_phase_measurement`, not `FAIL`. -/
theorem c1_zero_valid_counterexample :
    complete_phase_result (phase_stored_values [none]) 0 1 = .ERROR ∧
    complete_phase_result (phase_stored_values [none]) 0 1 ≠ .FAIL := by
  constructor <;> decide

/-- Claim C1 (corrected): for a completed phase, the result is `PASS` iff at
least one valid sample was stored and every stored sample lies within
`[lower, upper]`; a phase with zero valid samples is judged `ERROR` — a
non-passing outcome, but not `FAIL`. -/
theorem c1_phase_pass_amended (reads : List (Option ℚ)) (lower upper : ℚ) :
    (complete_phase_result (phase_stored_values reads) lower upper = .PASS ↔
      phase_stored_values reads ≠ [] ∧
      ∀ v ∈ phase_stored_values reads, lower ≤ v ∧ v ≤ upper) ∧
    (phase_stored_values reads = [] →
      complete_phase_result (phase_stored_values reads) lower upper = .ERROR) := by
  constructor
  · by_cases h : phase_stored_values reads = []
    · rw [complete_phase_result, if_neg (by simp [h])]
      simp [h]
    · rw [complete_phase_result, if_pos (by simp [h]), judgeLoop_eq_pass_iff]
      simp [h]
  · intro h
    rw [complete_phase_result, if_neg (by simp [h])]

/-- Witness for C1's amended theorem: a phase whose reads are one valid
in-range sample and one missing reading passes; a phase with only a missing
reading is `ERROR`. -/
theorem c1_phase_pass_amended_witness :
    complete_phase_result (phase_stored_values [some 1, none]) 0 2 = .PASS ∧
    complete_phase_result (phase_stored_values [none]) 0 2 = .ERROR :=
  ⟨(c1_phase_pass_amended [some 1, none] 0 2).1.mpr
      ⟨by decide, by intro v hv; simp [phase_stored_values] at hv; subst hv; norm_num⟩,
   (c1_phase_pass_amended [none] 0 2).2 (by decide)⟩

/-! ## Claim C2 -/

theorem collectLoop_eq (iters : List (ℚ × Option ℚ)) (ts : List ℚ) (vs : List (Option ℚ)) :
    collectLoop iters ts vs =
      (ts ++ iters.map Prod.fst, vs ++ iters.map (fun p => some (p.2.getD 0))) := by
  induction iters generalizing ts vs with
  | nil => simp [collectLoop]
  | cons p rest ih =>
    obtain ⟨elapsed, v⟩ := p
    cases v <;> simp [collectLoop, ih, Option.getD]

theorem latestLoop_eq (iters : List (ℚ × Option ℚ)) (ts : List ℚ) (vs : List (Option ℚ)) :
    latestLoop iters ts vs = (ts ++ iters.map Prod.fst, vs ++ iters.map Prod.snd) := by
  induction iters generalizing ts vs with
  | nil => simp [latestLoop]
  | cons p rest ih =>
    obtain ⟨elapsed, v⟩ := p
    simp [latestLoop, ih]

/-- Counterexample to claim C2: a polling iteration whose driver read is
missing (`None`) is stored by `wt310_collect_for` as `0.0`, not as `None`. -/
theorem c2_stored_sample_counterexample :
    (wt310_collect_for [(0, none)]).2 = [some 0] ∧
    (wt310_collect_for [(0, none)]).2 ≠ [none] := by
  constructor <;> simp [wt310_collect_for, collectLoop]

/-- Claim C2 (corrected): each collection iteration records the elapsed time
since phase start; `wt310_collect_for` (both its polling and synchronized
branches) stores a missing reading as `0.0` rather than `None`, while
`wt310_collect_latest_with_wait` stores the value exactly as returned with
`None` preserved; the aggregation in `wt310_sequential_inspection` skips
`None` entries rather than counting them as zero. -/
theorem c2_stored_samples_amended (iters : List (ℚ × Option ℚ)) :
    (wt310_collect_for iters).1 = iters.map Prod.fst ∧
    (wt310_collect_for iters).2 = iters.map (fun p => some (p.2.getD 0)) ∧
    (wt310_collect_latest_with_wait iters).1 = iters.map Prod.fst ∧
    (wt310_collect_latest_with_wait iters).2 = iters.map Prod.snd ∧
    ∀ ts vs, (wt310_phase_result ts vs).valid_values = vs.filterMap id ∧
      (wt310_phase_result ts vs).count = (vs.filterMap id).length := by
  refine ⟨?_, ?_, ?_, ?_, fun ts vs => ⟨rfl, rfl⟩⟩ <;>
    simp [wt310_collect_for, wt310_collect_latest_with_wait, collectLoop_eq, latestLoop_eq]

/-! ## Claim C3 -/

/-- Phase-body oracle for the C3 counterexample: phase 0 raises, the later
phases collect two valid samples each. -/
def c3run : ℕ → PhaseRun := fun i =>
  if i = 0 then .raises "serial port error"
  else .collects [1 / 4, 1 / 2] [some 5, some 6]

/-- Counterexample to claim C3: when phase `P1`'s body raises a driver
error, `wt310_sequential_inspection` records an error result for `P1` and
still attempts `P2` and `P3` — both collect two samples and carry no error —
and the function returns normally instead of propagating the exception. -/
theorem c3_error_halt_counterexample :
    ((wt310_sequential_inspection ["P1", "P2", "P3"] c3run).map Prod.fst
      = ["P1", "P2", "P3"]) ∧
    ((wt310_sequential_inspection ["P1", "P2", "P3"] c3run).map
        (fun p => (p.2.error, p.2.count))
      = [(some "serial port error", 0), (none, 2), (none, 2)]) := by
  constructor <;>
    simp [wt310_sequential_inspection, seqLoop, c3run, wt310_error_result, wt310_phase_result]

theorem seqLoop_map_fst (run : ℕ → PhaseRun) (phases : List String) (i0 : ℕ) :
    (seqLoop run phases i0).map Prod.fst = phases := by
  induction phases generalizing i0 with
  | nil => simp [seqLoop]
  | cons ph rest ih => simp [seqLoop, ih]

theorem seqLoop_error_at (run : ℕ → PhaseRun) (phases : List String) (i0 i : ℕ)
    (hi : i < phases.length) (msg : String) (hr : run (i0 + i) = .raises msg) :
    ((seqLoop run phases i0)[i]?).map Prod.snd = some (wt310_error_result msg) := by
  induction phases generalizing i0 i with
  | nil => simp at hi
  | cons ph rest ih =>
    cases i with
    | zero =>
      have h0 : run i0 = .raises msg := by simpa using hr
      simp [seqLoop, h0]
    | succ n =>
      have hr' : run (i0 + 1 + n) = .raises msg := by
        have : i0 + 1 + n = i0 + (n + 1) := by omega
        rw [this]; exact hr
      have hn : n < rest.length := by simpa using hi
      simpa [seqLoop] using ih (i0 + 1) n hn hr'

/-- Claim C3 (corrected): a phase whose body raises a driver or connection
error does not halt the session — `wt310_sequential_inspection` records an
error result for that phase and continues, producing one result per phase
in order and returning normally; moreover `wt310_read_active_power_once`
swallows any raised read error into `None` rather than propagating it. -/
theorem c3_error_continue_amended (phases : List String) (run : ℕ → PhaseRun)
    (i : ℕ) (hi : i < phases.length) (msg : String) (hr : run i = .raises msg) :
    (wt310_sequential_inspection phases run).map Prod.fst = phases ∧
    ((wt310_sequential_inspection phases run)[i]?).map Prod.snd
      = some (wt310_error_result msg) ∧
    ∀ (e : String) (ascii_format : Bool), wt310_read_once_total (.error e) ascii_format = none :=
  ⟨seqLoop_map_fst run phases 0,
   seqLoop_error_at run phases 0 i hi msg (by simpa using hr),
   fun _ _ => rfl⟩

/-- Witness for C3's amended theorem: a one-phase session whose body raises. -/
theorem c3_error_continue_amended_witness :
    ((wt310_sequential_inspection ["P1"] (fun _ => .raises "boom"))[0]?).map Prod.snd
      = some (wt310_error_result "boom") :=
  (c3_error_continue_amended ["P1"] (fun _ => .raises "boom") 0 (by decide) "boom" rfl).2.1

/-! ## Claim C7 -/

/-- Service state with a power session already running, for the C7
counterexample. -/
def c7_busy_state : InspectionServiceState :=
  { status := .RUNNING_POWER
    current_session_id := some "POWER_20250101_120000"
    current_barcode := some "BC-001"
    current_model_id := some 7 }

/-- Counterexample to claim C7: in `InspectionService`, a second
`start_continuous_inspection` issued while a session is running does not
leave the state unchanged — the busy rejection is raised inside the `try`,
so the `except` arm overwrites the running session's status with `ERROR`. -/
theorem c7_busy_counterexample :
    (start_continuous_inspection c7_busy_state "POWER_B" "BC-002" 8 true true true).1.status
      = .ERROR ∧
    (start_continuous_inspection c7_busy_state "POWER_B" "BC-002" 8 true true true).1
      ≠ c7_busy_state := by
  constructor <;> decide

/-- Claim C7 (corrected): in `InspectionRoutineService.process_barcode_scan`
every rejected request — busy, model not found, no active settings, no
connected device — returns `success = False` with the service state
unchanged; in `InspectionService.start_continuous_inspection`, however, a
busy rejection raises and its handler sets the status to `ERROR` (the
running session's status is clobbered), and a failed model lookup happens
after the session fields were already overwritten, also ending with status
`ERROR` — the no-state-change guarantee does not hold there. -/
theorem c7_reject_state_amended (st : InspectionServiceState) (rst : RoutineState)
    (sid barcode newSid : String) (modelId : ℤ)
    (mf pf mok rmf rsf rdc : Bool) :
    ((process_barcode_scan rst barcode rmf rsf rdc newSid).2 = false →
      (process_barcode_scan rst barcode rmf rsf rdc newSid).1 = rst) ∧
    (rst.status ≠ .BARCODE_READY →
      process_barcode_scan rst barcode rmf rsf rdc newSid = (rst, false)) ∧
    (st.status ≠ .IDLE →
      start_continuous_inspection st sid barcode modelId mf pf mok
        = ({ st with status := .ERROR }, true)) ∧
    (st.status = .IDLE → mf = false →
      start_continuous_inspection st sid barcode modelId mf pf mok
        = ({ status := .ERROR, current_session_id := some sid,
             current_barcode := some barcode, current_model_id := some modelId }, true)) := by
  refine ⟨?_, ?_, ?_, ?_⟩
  · intro h
    unfold process_barcode_scan at h ⊢
    split_ifs at h ⊢ <;> simp_all
  · intro h
    unfold process_barcode_scan
    rw [if_pos h]
  · intro h
    unfold start_continuous_inspection
    rw [if_pos h]
  · intro h hmf
    unfold start_continuous_inspection
    rw [if_neg (by simp [h]), if_pos (by simp [hmf])]

/-- Witness for C7's amended theorem: a busy `process_barcode_scan` is
rejected without state change, and a busy `start_continuous_inspection`
ends with status `ERROR`. -/
theorem c7_reject_state_amended_witness :
    process_barcode_scan ⟨.MEASURING_P1, none⟩ "BC-003" true true true "s1"
      = (⟨.MEASURING_P1, none⟩, false) ∧
    start_continuous_inspection c7_busy_state "POWER_B" "BC-002" 8 true true true
      = ({ c7_busy_state with status := .ERROR }, true) :=
  ⟨(c7_reject_state_amended c7_busy_state ⟨.MEASURING_P1, none⟩ "POWER_B" "BC-003" "s1" 8
      true true true true true true).2.1 (by decide),
   (c7_reject_state_amended c7_busy_state ⟨.MEASURING_P1, none⟩ "POWER_B" "BC-002" "s1" 8
      true true true true true true).2.2.1 (by decide)⟩

/-! ## Claim C8 -/

theorem lookupKey_removeKey {α β : Type} [DecidableEq α] (t : List (α × β)) (k : α) :
    lookupKey (removeKey t k) k = none := by
  induction t with
  | nil => rfl
  | cons p rest ih =>
    obtain ⟨k', v⟩ := p
    by_cases h : k' = k
    · simpa [removeKey, h] using ih
    · simpa [removeKey, lookupKey, h] using ih

theorem removeKey_idem {α β : Type} [DecidableEq α] (t : List (α × β)) (k : α) :
    removeKey (removeKey t k) k = removeKey t k := by
  simp [removeKey, List.filter_filter]

theorem lookupKey_setKey {α β : Type} [DecidableEq α] (t : List (α × β)) (k : α) (v : β) :
    lookupKey (setKey t k v) k = some v := by
  simp [setKey, lookupKey]

theorem lookupKey_eq_none_of_hasKey_false {α β : Type} [DecidableEq α]
    (t : List (α × β)) (k : α) (h : ¬ hasKey t k = true) : lookupKey t k = none := by
  cases hl : lookupKey t k with
  | none => rfl
  | some v => rw [hasKey, hl] at h; simp at h

/-- Claim C8 (code bug): the close-then-reopen the claim states — and the
source's own comment at `serial_communication.py` lines 39-41 announces —
never happens.  On the existing-entry path `connect_device` self-deadlocks
(`disconnect_device` re-acquires the non-reentrant lock the caller holds),
so reconnecting device `1` while `{1: COM1}` is in the table hangs with
nothing closed, removed or reopened; the fresh-handle behaviour occurs only
when no prior entry exists.  `serial.py`'s variant does return, but keeps
the prior handle and opens no fresh one. -/
theorem c8_connect_idempotent_bug :
    sc_connect_device [(1, ⟨"COM1", true⟩)] 1 (.opened ⟨"COM2", true⟩) = none ∧
    sc_connect_device [] 1 (.opened ⟨"COM2", true⟩)
      = some (setKey [] 1 ⟨"COM2", true⟩, true) ∧
    s_connect_device [(1, ⟨"COM1", true⟩)] 1 (.opened ⟨"COM2", true⟩)
      = ([(1, ⟨"COM1", true⟩)], true) ∧
    lookupKey (s_connect_device [(1, ⟨"COM1", true⟩)] 1 (.opened ⟨"COM2", true⟩)).1 1
      ≠ some ⟨"COM2", true⟩ := by
  refine ⟨?_, ?_, ?_, ?_⟩ <;> decide

/-! ## Claim C9 -/

/-- Counterexample to claim C9: `disconnect_device` on a device with no
handle returns `False` — a failure flag, not the claimed no-op success — in
both `serial_communication.py` and `serial.py`. -/
theorem c9_disconnect_counterexample :
    sc_disconnect_device [] 1 false = ([], false) ∧
    s_disconnect_device [] 1 false = ([], false) := by
  constructor <;> decide

/-- Claim C9 (corrected): `disconnect_device` closes and removes the handle
and returns `True` when one is present and `close()` succeeds, and returns
`False` as a no-op when none exists; in both of those cases the table
afterwards has no entry for the device.  (If `close()` raises, the entry
remains and `False` is returned.)  `serial.py`'s variant behaves
identically. -/
theorem c9_disconnect_amended (t : ConnTable) (device_id : ℤ) (closeRaises : Bool) :
    (hasKey t device_id = true →
      sc_disconnect_device t device_id false = (removeKey t device_id, true)) ∧
    (hasKey t device_id = false →
      sc_disconnect_device t device_id false = (t, false) ∧
      lookupKey t device_id = none) ∧
    lookupKey (sc_disconnect_device t device_id false).1 device_id = none ∧
    (hasKey t device_id = true →
      sc_disconnect_device t device_id true = (t, false)) ∧
    s_disconnect_device t device_id closeRaises
      = sc_disconnect_device t device_id closeRaises := by
  refine ⟨?_, ?_, ?_, ?_, rfl⟩
  · intro h
    unfold sc_disconnect_device
    rw [if_pos h, if_neg (by decide)]
  · intro h
    refine ⟨?_, ?_⟩
    · unfold sc_disconnect_device
      rw [if_neg (by simp [h])]
    · exact lookupKey_eq_none_of_hasKey_false t device_id (by simp [h])
  · unfold sc_disconnect_device
    by_cases h : hasKey t device_id
    · rw [if_pos h, if_neg (by decide)]
      exact lookupKey_removeKey t device_id
    · rw [if_neg h]
      exact lookupKey_eq_none_of_hasKey_false t device_id h
  · intro h
    unfold sc_disconnect_device
    rw [if_pos h, if_pos rfl]

/-- Witness for C9's amended theorem: removing a present handle succeeds and
empties the table of that id; an absent handle reports failure. -/
theorem c9_disconnect_amended_witness :
    sc_disconnect_device [((1 : ℤ), (⟨"COM1", true⟩ : SerialPort))] 1 false
      = (removeKey [((1 : ℤ), (⟨"COM1", true⟩ : SerialPort))] 1, true) ∧
    sc_disconnect_device [] (2 : ℤ) false = ([], false) :=
  ⟨(c9_disconnect_amended [(1, ⟨"COM1", true⟩)] 1 false).1 (by decide),
   ((c9_disconnect_amended [] 2 false).2.1 (by decide)).1⟩

/-! ## Claim C10 -/

theorem overall_loop_pass_iff (l : List (Option MeasurementResult)) :
    overall_loop l = .PASS ↔ ∀ r ∈ l, r = some .PASS := by
  induction l with
  | nil => simp [overall_loop]
  | cons r rest ih =>
    simp only [overall_loop]
    by_cases h : r = some .PASS
    · rw [if_neg (by simp [h]), ih]
      simp [h]
    · rw [if_pos (by simp [h])]
      constructor
      · intro hfail; exact absurd hfail (by decide)
      · intro hall; exact absurd (hall r (List.mem_cons_self r rest)) h

theorem overall_loop_fail_of_mem (l : List (Option MeasurementResult))
    (r : Option MeasurementResult) (hr : r ∈ l) (hne : r ≠ some .PASS) :
    overall_loop l = .FAIL := by
  induction l with
  | nil => cases hr
  | cons x rest ih =>
    rcases List.mem_cons.mp hr with rfl | hr'
    · simp [overall_loop, hne]
    · simp only [overall_loop]
      by_cases hx : x = some .PASS
      · rw [if_neg (by simp [hx])]
        exact ih hr'
      · rw [if_pos (by simp [hx])]

theorem complete_measurement_session_absent (svc : MeasurementSvc) (sid : String)
    (h : lookupKey svc.active sid = none) :
    complete_measurement_session svc sid = (svc, none) := by
  unfold complete_measurement_session
  rw [h]

/-- Claim C10 (confirmed): completing a session reports `PASS` iff each of
`P1`, `P2`, `P3` carries a recorded result equal to `PASS`; a phase that
never completed (result absent) forces `FAIL`; the session is removed from
the active table and completing the same id again is a no-op returning
`None`. -/
theorem c10_complete_session (svc : MeasurementSvc) (sid : String) (md : MeasurementData)
    (h : lookupKey svc.active sid = some md) :
    ((complete_measurement_session svc sid).2 = some .PASS ↔
      md.p1 = some .PASS ∧ md.p2 = some .PASS ∧ md.p3 = some .PASS) ∧
    ((md.p1 = none ∨ md.p2 = none ∨ md.p3 = none) →
      (complete_measurement_session svc sid).2 = some .FAIL) ∧
    lookupKey (complete_measurement_session svc sid).1.active sid = none ∧
    complete_measurement_session (complete_measurement_session svc sid).1 sid
      = ((complete_measurement_session svc sid).1, none) := by
  have hmain : complete_measurement_session svc sid
      = (⟨removeKey svc.active sid⟩, some (overall_loop [md.p1, md.p2, md.p3])) := by
    unfold complete_measurement_session
    rw [h]
  have hsnd : (complete_measurement_session svc sid).2
      = some (overall_loop [md.p1, md.p2, md.p3]) := by rw [hmain]
  have hgone : lookupKey (complete_measurement_session svc sid).1.active sid = none := by
    rw [hmain]
    exact lookupKey_removeKey svc.active sid
  refine ⟨?_, ?_, hgone, ?_⟩
  · rw [hsnd]
    simp only [Option.some_inj]
    rw [overall_loop_pass_iff]
    simp
  · intro hmiss
    rw [hsnd]
    rcases hmiss with hm | hm | hm
    · exact congrArg some (overall_loop_fail_of_mem _ md.p1
        (List.mem_cons_self _ _) (by simp [hm]))
    · exact congrArg some (overall_loop_fail_of_mem _ md.p2
        (List.mem_cons_of_mem _ (List.mem_cons_self _ _)) (by simp [hm]))
    · exact congrArg some (overall_loop_fail_of_mem _ md.p3
        (List.mem_cons_of_mem _ (List.mem_cons_of_mem _ (List.mem_cons_self _ _)))
        (by simp [hm]))
  · exact complete_measurement_session_absent _ sid hgone

/-- Witness for C10: a session whose `P3` never completed is reported
`FAIL`, and its entry is gone afterwards. -/
theorem c10_complete_session_witness :
    (complete_measurement_session ⟨[("s1", ⟨some .PASS, some .PASS, none⟩)]⟩ "s1").2
      = some .FAIL ∧
    lookupKey (complete_measurement_session
        ⟨[("s1", ⟨some .PASS, some .PASS, none⟩)]⟩ "s1").1.active "s1" = none :=
  ⟨(c10_complete_session ⟨[("s1", ⟨some .PASS, some .PASS, none⟩)]⟩ "s1"
      ⟨some .PASS, some .PASS, none⟩ (by decide)).2.1 (Or.inr (Or.inr rfl)),
   (c10_complete_session ⟨[("s1", ⟨some .PASS, some .PASS, none⟩)]⟩ "s1"
      ⟨some .PASS, some .PASS, none⟩ (by decide)).2.2.1⟩

end MeasureOhSung
